import Mathlib

/-!
Verification of the client-side conversation state store
(`ChatProvider` / `useChat` in the repository's chat context module).

The store holds four pieces of state: the message list, the cached
conversation list, the current conversation id (session pointer) and a
loading flag.  The async operations (`loadConversation`,
`loadAgentConversations`, `deleteConversation`) talk to a remote API via
`fetch`; we embed them as pure state transformers parameterised by an
explicit outcome value that enumerates the control paths the JavaScript
can take at the network boundary: the fetch throwing, a non-ok response
status, `response.json()` rejecting, and (for `loadConversation`) the
parsed body lacking the `messages` array so that `.map` throws, versus a
well-formed `messages` array.

JavaScript `undefined` for a missing property is modelled by `Option`:
a remote message is an arbitrary JSON object, so each of the four fields
accessed during remapping (`msg.id`, `msg.text`, `msg.sender`,
`msg.timestamp`) may be absent (`none`).  Property access on a missing
field does not throw in JavaScript; it yields `undefined`, which is then
stored.  `new Date(x)` is modelled by the free constructors of `JsDate`:
parsing a string and taking the current clock are kept as distinct
injective constructors, and `new Date(undefined)` is an invalid date.
-/

/-- A JavaScript `Date` value, abstractly: constructed either from the
current clock (`new Date()` in `addMessage`, millisecond reading `t`),
or by parsing a wire string (`new Date(msg.timestamp)`), or invalid
(`new Date(undefined)` when the timestamp field is missing). -/
inductive JsDate where
  | fromMillis (t : Nat)
  | parsedFrom (s : String)
  | invalid
deriving DecidableEq, Repr

/-- `new Date(msg.timestamp)` where `msg.timestamp` may be `undefined`. -/
def newDate : Option String → JsDate
  | some s => JsDate.parsedFrom s
  | none => JsDate.invalid

/-- The `sender` argument of `addMessage`, typed `'user' | 'bot'`. -/
inductive Sender where
  | user
  | bot
deriving DecidableEq, Repr

/-- The runtime string value of a `Sender` literal. -/
def Sender.wire : Sender → String
  | Sender.user => "user"
  | Sender.bot => "bot"

/-- A locally stored `Message`.  Fields are `Option`-valued because
messages loaded from a remote history copy the remote object's
properties verbatim, and a property missing on the wire is JavaScript
`undefined` (`none` here); `addMessage` always stores present fields. -/
structure Message where
  id : Option String
  text : Option String
  sender : Option String
  timestamp : JsDate
deriving DecidableEq, Repr

/-- A cached `Conversation` summary record, as received from
`GET /api/agents/{agentName}/conversations`. -/
structure Conversation where
  id : String
  agent_name : String
  title : String
  created_at : String
  updated_at : String
  message_count : Nat
deriving DecidableEq, Repr

/-- The four state fields owned by `ChatProvider`. -/
structure ChatState where
  messages : List Message
  conversations : List Conversation
  currentConversationId : Option String
  isLoading : Bool
deriving DecidableEq, Repr

/-- The initial state of a freshly mounted provider:
`useState([])`, `useState([])`, `useState(null)`, `useState(false)`. -/
def initialState : ChatState :=
  { messages := [], conversations := [], currentConversationId := none, isLoading := false }

/-- One element of the `history.messages` array returned by
`GET /api/conversations/{id}`.  It is an arbitrary JSON object
(`msg: any` in the source), so every field the remapping reads may be
absent. -/
structure RemoteMessage where
  id : Option String
  text : Option String
  sender : Option String
  timestamp : Option String
deriving DecidableEq, Repr

/-- The control paths of `loadConversation` at the network boundary:
the fetch throws; the response status is not ok; `response.json()`
rejects (body is not JSON); the parsed body has no `messages` array so
`history.messages.map` throws a TypeError; or a `messages` array is
present and the element-wise remap runs (property access on an element
never throws, whatever fields it has). -/
inductive LoadOutcome where
  | fetchThrows
  | notOk
  | jsonThrows
  | noMessagesField
  | history (msgs : List RemoteMessage)
deriving DecidableEq, Repr

/-- The element-wise remap applied to each remote message:
`{ id: msg.id, text: msg.text, sender: msg.sender,
   timestamp: new Date(msg.timestamp) }`. -/
def remapMessage (msg : RemoteMessage) : Message :=
  { id := msg.id, text := msg.text, sender := msg.sender,
    timestamp := newDate msg.timestamp }

/-- `addMessage(text, sender)`: appends a new message whose id is
`Date.now().toString()` and whose timestamp is `new Date()`; `now` is
the wall-clock millisecond reading at the call. -/
def addMessage (s : ChatState) (now : Nat) (text : String) (sender : Sender) : ChatState :=
  { s with messages := s.messages ++
      [{ id := some (toString now), text := some text,
         sender := some sender.wire, timestamp := JsDate.fromMillis now }] }

/-- `clearMessages()`: empties the message list and nulls the session
pointer.  No remote call; conversations and the loading flag untouched. -/
def clearMessages (s : ChatState) : ChatState :=
  { s with messages := [], currentConversationId := none }

/-- `createNewConversation()`: same body as `clearMessages`. -/
def createNewConversation (s : ChatState) : ChatState :=
  { s with messages := [], currentConversationId := none }

/-- The state right after `setIsLoading(true)` at the top of the `try`
block of `loadConversation`, while the fetch is pending. -/
def loadConversationPending (s : ChatState) : ChatState :=
  { s with isLoading := true }

/-- The `try`/`catch` body of `loadConversation` after the flag was
raised: on an ok response with a well-formed `messages` array the local
list is replaced by the remapped history and the pointer is set; every
other path either skips the `if (response.ok)` body or throws into the
`catch`, which only logs — no state change. -/
def loadConversationBody (s : ChatState) (conversationId : String)
    (outcome : LoadOutcome) : ChatState :=
  match outcome with
  | LoadOutcome.history msgs =>
      { s with messages := msgs.map remapMessage,
               currentConversationId := some conversationId }
  | _ => s

/-- `loadConversation(conversationId)`: raises the loading flag, runs
the fetch with the given outcome, and the `finally` block lowers the
flag on every path. -/
def loadConversation (s : ChatState) (conversationId : String)
    (outcome : LoadOutcome) : ChatState :=
  let after := loadConversationBody (loadConversationPending s) conversationId outcome
  { after with isLoading := false }

/-- The control paths of `loadAgentConversations`: fetch throws,
non-ok status, `response.json()` rejects, or a parsed conversation
array (the API contract for this endpoint returns an array of
conversation summaries). -/
inductive ListOutcome where
  | fetchThrows
  | notOk
  | jsonThrows
  | list (convs : List Conversation)
deriving DecidableEq, Repr

/-- `loadAgentConversations(agentName)`: on an ok JSON response the
cached conversation list is replaced wholesale; on every other path the
`catch` only logs.  The loading flag is never touched. -/
def loadAgentConversations (s : ChatState) (agentName : String)
    (outcome : ListOutcome) : ChatState :=
  match outcome with
  | ListOutcome.list convs => { s with conversations := convs }
  | _ => s

/-- The control paths of `deleteConversation`: fetch throws, non-ok
status, or ok (the body is never read). -/
inductive DeleteOutcome where
  | fetchThrows
  | notOk
  | ok
deriving DecidableEq, Repr

/-- `deleteConversation(conversationId)`: on an ok response, filters
the cached list by id, and if the session pointer equals the deleted id
additionally runs `clearMessages()`; on any failure the `catch` only
logs. -/
def deleteConversation (s : ChatState) (conversationId : String)
    (outcome : DeleteOutcome) : ChatState :=
  match outcome with
  | DeleteOutcome.ok =>
      let s1 := { s with conversations :=
        s.conversations.filter (fun conv => conv.id != conversationId) }
      if s.currentConversationId = some conversationId then clearMessages s1 else s1
  | _ => s

/-- `useChat()`: reads the ambient context; `undefined` (no enclosing
`ChatProvider`) throws a programmer error, otherwise the context value
is returned. -/
def useChat {α : Type} (context : Option α) : Except String α :=
  match context with
  | none => Except.error "useChat must be used within a ChatProvider"
  | some ctx => Except.ok ctx

/-! ### Helper lemmas -/

/-- Filtering out the entries matching an id shortens the list by the
number of matching entries. -/
theorem length_filter_ne_add_countP (l : List Conversation) (cid : String) :
    (l.filter (fun c => c.id != cid)).length + l.countP (fun c => c.id == cid) = l.length := by
  induction l with
  | nil => rfl
  | cons a t ih =>
    by_cases h : a.id = cid
    · have hb : (a.id == cid) = true := beq_iff_eq.mpr h
      have hnb : (a.id != cid) = false := by simp [bne, hb]
      simp [List.filter_cons, List.countP_cons, hb, hnb]
      omega
    · have hb : (a.id == cid) = false := by simp [h]
      have hnb : (a.id != cid) = true := by simp [bne, hb]
      simp [List.filter_cons, List.countP_cons, hb, hnb]
      omega

/-- On a successful delete, the cached conversation list is the filter
of the prior list by id, whichever branch the pointer check takes. -/
theorem deleteConversation_ok_conversations (s : ChatState) (cid : String) :
    (deleteConversation s cid DeleteOutcome.ok).conversations =
      s.conversations.filter (fun c => c.id != cid) := by
  by_cases hc : s.currentConversationId = some cid <;>
    simp [deleteConversation, clearMessages, hc]

/-! ### Concrete states used by counterexamples and witnesses -/

/-- A typical locally appended message, used as pre-existing state. -/
def preMessage : Message :=
  { id := some "m1", text := some "hello", sender := some "user",
    timestamp := JsDate.fromMillis 5 }

/-- A state with one message and an open conversation, prior state for
the malformed-body counterexample. -/
def preState : ChatState :=
  { messages := [preMessage], conversations := [],
    currentConversationId := some "old", isLoading := false }

/-- A remote message object lacking every field the remap reads. -/
def malformedRemote : RemoteMessage :=
  { id := none, text := none, sender := none, timestamp := none }

/-- Two rapid-fire `addMessage` calls that observe the same
`Date.now()` millisecond reading. -/
def collisionState : ChatState :=
  addMessage (addMessage initialState 1700000000000 "first" Sender.user)
    1700000000000 "second" Sender.bot

/-- A cached conversation summary with id c1. -/
def convC1 : Conversation :=
  { id := "c1", agent_name := "agent", title := "t1", created_at := "d1",
    updated_at := "d1", message_count := 2 }

/-- A cached conversation summary with id c2. -/
def convC2 : Conversation :=
  { id := "c2", agent_name := "agent", title := "t2", created_at := "d2",
    updated_at := "d2", message_count := 3 }

/-- A message present while conversation c1 is open, prior state for
the delete witness. -/
def openMessage : Message :=
  { id := some "m2", text := some "hi", sender := some "bot",
    timestamp := JsDate.fromMillis 9 }

/-- Prior state for the `deleteConversation` success witness: two
cached conversations, c1 currently open. -/
def deleteWitnessState : ChatState :=
  { messages := [openMessage], conversations := [convC1, convC2],
    currentConversationId := some "c1", isLoading := false }

/-! ### Claims -/

/-- Claim C1: when the fetch of `loadConversation(id)` returns a
successful response carrying a message history, the store replaces the
entire local message list with exactly that history remapped
element-wise — id, text and sender copied, the wire timestamp string
converted to a `Date` — and sets `currentConversationId` to the given
id. -/
theorem loadConversation_success_replaces (s : ChatState) (cid : String)
    (msgs : List RemoteMessage) :
    (loadConversation s cid (LoadOutcome.history msgs)).messages =
      msgs.map (fun msg =>
        ({ id := msg.id, text := msg.text, sender := msg.sender,
           timestamp := newDate msg.timestamp } : Message)) ∧
    (loadConversation s cid (LoadOutcome.history msgs)).currentConversationId =
      some cid :=
  ⟨rfl, rfl⟩

/-- Claim C2, counterexample: a response body whose messages array
elements are malformed (all fields missing) is NOT treated as a failure
that leaves state untouched — the message list is replaced and the
pointer is moved, because JavaScript property access on a missing field
yields undefined without throwing, so the remap completes. -/
theorem loadConversation_malformed_changes_state :
    (loadConversation preState "new" (LoadOutcome.history [malformedRemote])).messages ≠
      preState.messages ∧
    (loadConversation preState "new"
        (LoadOutcome.history [malformedRemote])).currentConversationId ≠
      preState.currentConversationId := by
  constructor <;> decide

/-- Claim C2 as amended: the failure modes that actually throw or are
flagged non-ok — transport error, non-success status, a body that is
not JSON, and a body without a `messages` array (so the remapping map
call throws) — leave the message list and pointer exactly as before the
call; but a successful response whose `messages` array elements lack
fields is not a failure: the list is replaced with the remapped
(malformed) messages and the pointer is set. -/
theorem loadConversation_failure_leaves_state (s : ChatState) (cid : String) :
    (loadConversation s cid LoadOutcome.fetchThrows).messages = s.messages ∧
    (loadConversation s cid LoadOutcome.fetchThrows).currentConversationId =
      s.currentConversationId ∧
    (loadConversation s cid LoadOutcome.notOk).messages = s.messages ∧
    (loadConversation s cid LoadOutcome.notOk).currentConversationId =
      s.currentConversationId ∧
    (loadConversation s cid LoadOutcome.jsonThrows).messages = s.messages ∧
    (loadConversation s cid LoadOutcome.jsonThrows).currentConversationId =
      s.currentConversationId ∧
    (loadConversation s cid LoadOutcome.noMessagesField).messages = s.messages ∧
    (loadConversation s cid LoadOutcome.noMessagesField).currentConversationId =
      s.currentConversationId ∧
    (∀ msgs, (loadConversation s cid (LoadOutcome.history msgs)).messages =
        msgs.map remapMessage ∧
      (loadConversation s cid (LoadOutcome.history msgs)).currentConversationId =
        some cid) :=
  ⟨rfl, rfl, rfl, rfl, rfl, rfl, rfl, rfl, fun _ => ⟨rfl, rfl⟩⟩

/-- Claim C3, failing input: two `addMessage` calls within the same
wall-clock millisecond (both observe `Date.now() = 1700000000000`).
The list grows by one per call in order, but both messages get the id
"1700000000000" — `Date.now().toString()` is wall-clock alone, so ids
are not pairwise distinct under rapid-fire calls. -/
theorem addMessage_wallclock_id_collision :
    collisionState.messages.length = 2 ∧
    collisionState.messages.map (fun m => m.id) =
      [some "1700000000000", some "1700000000000"] ∧
    collisionState.messages.map (fun m => m.text) =
      [some "first", some "second"] := by
  refine ⟨rfl, ?_, rfl⟩
  decide

/-- Claim C4: on a successful remote delete, the cached conversation
list becomes the prior list filtered by id; when the deleted id occurs
exactly once this is one element fewer, with the relative order of the
rest preserved (the result is a sublist of the prior list); and the
messages/pointer pair is reset to empty/none exactly when the pointer
equalled the deleted id, otherwise both are untouched.  The loading
flag is never modified. -/
theorem deleteConversation_success_spec (s : ChatState) (cid : String)
    (h : s.conversations.countP (fun c => c.id == cid) = 1) :
    (deleteConversation s cid DeleteOutcome.ok).conversations =
      s.conversations.filter (fun c => c.id != cid) ∧
    (deleteConversation s cid DeleteOutcome.ok).conversations.length + 1 =
      s.conversations.length ∧
    List.Sublist (deleteConversation s cid DeleteOutcome.ok).conversations
      s.conversations ∧
    ((deleteConversation s cid DeleteOutcome.ok).messages,
      (deleteConversation s cid DeleteOutcome.ok).currentConversationId) =
      (if s.currentConversationId = some cid then ([], none)
       else (s.messages, s.currentConversationId)) ∧
    (deleteConversation s cid DeleteOutcome.ok).isLoading = s.isLoading := by
  have hconvs := deleteConversation_ok_conversations s cid
  refine ⟨hconvs, ?_, ?_, ?_, ?_⟩
  · have hlen := length_filter_ne_add_countP s.conversations cid
    rw [hconvs]
    omega
  · rw [hconvs]
    exact List.filter_sublist s.conversations
  · by_cases hc : s.currentConversationId = some cid <;>
      simp [deleteConversation, clearMessages, hc]
  · by_cases hc : s.currentConversationId = some cid <;>
      simp [deleteConversation, clearMessages, hc]

/-- Claim C4 witness: deleting c1 from a state caching c1 and c2 with
c1 open leaves only c2 cached and resets messages and pointer. -/
theorem deleteConversation_success_spec_witness :
    deleteWitnessState.conversations.countP (fun c => c.id == "c1") = 1 ∧
    ((deleteConversation deleteWitnessState "c1" DeleteOutcome.ok).conversations.length + 1 =
      deleteWitnessState.conversations.length) :=
  ⟨by decide,
    (deleteConversation_success_spec deleteWitnessState "c1" (by decide)).2.1⟩

/-- Claim C5: every `loadConversation` call raises the loading flag at
the start (the pending state has the flag true) and the `finally`
clause lowers it on every outcome — success, non-ok status, thrown
network error, bad JSON, missing messages array — so the final state
always has the flag false; the whole call is the finally-reset of the
body applied to the pending state. -/
theorem loadConversation_loading_flag (s : ChatState) (cid : String)
    (o : LoadOutcome) :
    (loadConversationPending s).isLoading = true ∧
    (loadConversation s cid o).isLoading = false ∧
    loadConversation s cid o =
      { loadConversationBody (loadConversationPending s) cid o with
        isLoading := false } :=
  ⟨rfl, rfl, rfl⟩

/-- Claim C6: a `deleteConversation` call whose fetch throws or whose
response status is not ok leaves the whole state — cached conversation
list, session pointer, messages and loading flag — exactly unchanged:
no optimistic removal. -/
theorem deleteConversation_failure_unchanged (s : ChatState) (cid : String) :
    deleteConversation s cid DeleteOutcome.fetchThrows = s ∧
    deleteConversation s cid DeleteOutcome.notOk = s :=
  ⟨rfl, rfl⟩

/-- Claim C7: `loadAgentConversations` replaces the cached conversation
list wholesale on a successful response, leaves the whole state
unchanged on every failure path, and in every outcome never modifies
the loading flag, the message list or the session pointer. -/
theorem loadAgentConversations_spec (s : ChatState) (a : String) :
    loadAgentConversations s a ListOutcome.fetchThrows = s ∧
    loadAgentConversations s a ListOutcome.notOk = s ∧
    loadAgentConversations s a ListOutcome.jsonThrows = s ∧
    (∀ convs, loadAgentConversations s a (ListOutcome.list convs) =
      { s with conversations := convs }) ∧
    (∀ o, (loadAgentConversations s a o).isLoading = s.isLoading ∧
      (loadAgentConversations s a o).messages = s.messages ∧
      (loadAgentConversations s a o).currentConversationId =
        s.currentConversationId) := by
  refine ⟨rfl, rfl, rfl, fun _ => rfl, fun o => ?_⟩
  cases o <;> exact ⟨rfl, rfl, rfl⟩

/-- Claim C8: `clearMessages` and `createNewConversation` are the same
reset: from any prior state both yield an empty message list and a none
pointer, with no effect on the cached conversation list or the loading
flag (and no remote call — they are plain state transformers taking no
outcome argument). -/
theorem resetConversation_spec (s : ChatState) :
    clearMessages s = { s with messages := [], currentConversationId := none } ∧
    createNewConversation s = clearMessages s ∧
    (clearMessages s).messages = [] ∧
    (clearMessages s).currentConversationId = none ∧
    (clearMessages s).conversations = s.conversations ∧
    (clearMessages s).isLoading = s.isLoading :=
  ⟨rfl, rfl, rfl, rfl, rfl, rfl⟩

/-- Claim C9: calling `useChat` when the ambient context is undefined
(no enclosing `ChatProvider`) throws the programmer error rather than
returning a value, and inside a provider it returns the context. -/
theorem useChat_outside_provider_throws :
    useChat (α := ChatState) none =
      Except.error "useChat must be used within a ChatProvider" ∧
    (∀ ctx : ChatState, useChat (some ctx) = Except.ok ctx) :=
  ⟨rfl, fun _ => rfl⟩

/-- Claim C10: after a successful delete no cached entry carries the
deleted id — the removal filters by id, so even a prior list violating
id-uniqueness loses every matching duplicate in the single call. -/
theorem deleteConversation_removes_all_matching (s : ChatState) (cid : String) :
    (deleteConversation s cid DeleteOutcome.ok).conversations.countP
      (fun c => c.id == cid) = 0 ∧
    (deleteConversation s cid DeleteOutcome.ok).conversations.all
      (fun c => c.id != cid) = true := by
  have hconvs := deleteConversation_ok_conversations s cid
  constructor
  · rw [hconvs, List.countP_eq_zero]
    intro a ha
    have hmem := List.mem_filter.mp ha
    intro hbeq
    have h2 := hmem.2
    simp [bne, hbeq] at h2
  · rw [hconvs, List.all_eq_true]
    intro a ha
    exact (List.mem_filter.mp ha).2
